import Mathlib

/-!
# Verification of the Bedrock Titan outpainting example (`src/app.py`)

A shallow embedding of the core of `src/app.py`:

* base64 encoding/decoding (Python `base64.b64encode` / `base64.b64decode`
  on standard-conforming input), used by both the request builder and the
  response decoder;
* `generate_image` — parses the remote response, extracts `images[0]`,
  base64-decodes it, then inspects the `error` field;
* `prepare_outpainting_request_with_mask_prompt` — builds the outpainting
  payload, invokes the model, persists the resulting image, and catches
  `ClientError` / `ImageError`;
* the submission validation of `main` (image present, dimensions ≤ 1408).

Bytes are modelled as `Nat` with an explicit `< 256` bound where it matters.
Python exceptions are modelled with an explicit error type threaded through
`Except`.
-/

namespace App

/-- The base64 alphabet: maps a sextet `n < 64` to its standard-alphabet
character (`A-Z`, `a-z`, `0-9`, `+`, `/`), as used by `base64.b64encode`. -/
def b64Char (n : Nat) : Char :=
  if n < 26 then Char.ofNat (65 + n)
  else if n < 52 then Char.ofNat (71 + n)
  else if n < 62 then Char.ofNat (n - 4)
  else if n = 62 then '+'
  else '/'

/-- Inverse alphabet lookup: the sextet value of a base64 character, `none`
for a character outside the standard alphabet. -/
def b64Val (c : Char) : Option Nat :=
  if 'A' ≤ c ∧ c ≤ 'Z' then some (c.toNat - 65)
  else if 'a' ≤ c ∧ c ≤ 'z' then some (c.toNat - 71)
  else if '0' ≤ c ∧ c ≤ '9' then some (c.toNat + 4)
  else if c = '+' then some 62
  else if c = '/' then some 63
  else none

/-- `base64.b64encode` on a byte list: groups of three bytes become four
alphabet characters; a trailing group of one or two bytes is padded with
`=`. -/
def b64encodeBytes : List Nat → List Char
  | [] => []
  | [b1] => [b64Char (b1 / 4), b64Char (b1 % 4 * 16), '=', '=']
  | [b1, b2] =>
      [b64Char (b1 / 4), b64Char (b1 % 4 * 16 + b2 / 16), b64Char (b2 % 16 * 4), '=']
  | b1 :: b2 :: b3 :: rest =>
      b64Char (b1 / 4) :: b64Char (b1 % 4 * 16 + b2 / 16) ::
      b64Char (b2 % 16 * 4 + b3 / 64) :: b64Char (b3 % 64) :: b64encodeBytes rest

/-- `base64.b64decode` on standard-conforming input: four characters decode
to three bytes, with `=`-padding allowed only in the final quadruple; any
other shape (wrong length, stray character, interior padding) fails. -/
def b64decodeChars : List Char → Option (List Nat)
  | [] => some []
  | c1 :: c2 :: c3 :: c4 :: rest =>
    match b64Val c1, b64Val c2 with
    | some v1, some v2 =>
      if c3 = '=' then
        if c4 = '=' ∧ rest = [] then some [v1 * 4 + v2 / 16] else none
      else
        match b64Val c3 with
        | some v3 =>
          if c4 = '=' then
            if rest = [] then some [v1 * 4 + v2 / 16, v2 % 16 * 16 + v3 / 4] else none
          else
            match b64Val c4 with
            | some v4 =>
              match b64decodeChars rest with
              | some tail =>
                  some ((v1 * 4 + v2 / 16) :: (v2 % 16 * 16 + v3 / 4) ::
                        (v3 % 4 * 64 + v4) :: tail)
              | none => none
            | none => none
        | none => none
    | _, _ => none
  | _ => none

/-- Alphabet lookup inverts the alphabet map on every sextet. -/
theorem b64Val_b64Char_fin : ∀ n : Fin 64, b64Val (b64Char n.val) = some n.val := by
  decide

/-- Alphabet lookup inverts the alphabet map. -/
theorem b64Val_b64Char (n : Nat) (h : n < 64) : b64Val (b64Char n) = some n :=
  b64Val_b64Char_fin ⟨n, h⟩

/-- No alphabet character is the padding character. -/
theorem b64Char_ne_pad_fin : ∀ n : Fin 64, b64Char n.val ≠ '=' := by
  decide

/-- No alphabet character is the padding character. -/
theorem b64Char_ne_pad (n : Nat) (h : n < 64) : b64Char n ≠ '=' :=
  b64Char_ne_pad_fin ⟨n, h⟩

/-- Round-trip: decoding the encoding of any byte list returns it exactly. -/
theorem b64_roundtrip :
    ∀ bs : List Nat, (∀ b ∈ bs, b < 256) →
      b64decodeChars (b64encodeBytes bs) = some bs := by
  intro bs hbs
  induction bs using b64encodeBytes.induct with
  | case1 =>
      simp [b64encodeBytes, b64decodeChars]
  | case2 b1 =>
      have h1 : b1 < 256 := hbs b1 (by simp)
      have e1 := b64Val_b64Char (b1 / 4) (by omega)
      have e2 := b64Val_b64Char (b1 % 4 * 16) (by omega)
      simp only [b64encodeBytes, b64decodeChars, e1, e2, and_self, ite_true,
        Option.some.injEq, List.cons.injEq, and_true]
      omega
  | case3 b1 b2 =>
      have h1 : b1 < 256 := hbs b1 (by simp)
      have h2 : b2 < 256 := hbs b2 (by simp)
      have e1 := b64Val_b64Char (b1 / 4) (by omega)
      have e2 := b64Val_b64Char (b1 % 4 * 16 + b2 / 16) (by omega)
      have e3 := b64Val_b64Char (b2 % 16 * 4) (by omega)
      have n3 := b64Char_ne_pad (b2 % 16 * 4) (by omega)
      simp only [b64encodeBytes, b64decodeChars, e1, e2, e3, n3, ne_eq,
        ite_true, ite_false, if_true, if_false, and_self,
        Option.some.injEq, List.cons.injEq, and_true]
      omega
  | case4 b1 b2 b3 rest ih =>
      have h1 : b1 < 256 := hbs b1 (by simp)
      have h2 : b2 < 256 := hbs b2 (by simp)
      have h3 : b3 < 256 := hbs b3 (by simp)
      have hrest : ∀ b ∈ rest, b < 256 := by
        intro b hb
        exact hbs b (by simp [hb])
      have e1 := b64Val_b64Char (b1 / 4) (by omega)
      have e2 := b64Val_b64Char (b1 % 4 * 16 + b2 / 16) (by omega)
      have e3 := b64Val_b64Char (b2 % 16 * 4 + b3 / 64) (by omega)
      have e4 := b64Val_b64Char (b3 % 64) (by omega)
      have n3 := b64Char_ne_pad (b2 % 16 * 4 + b3 / 64) (by omega)
      have n4 := b64Char_ne_pad (b3 % 64) (by omega)
      simp only [b64encodeBytes, b64decodeChars, e1, e2, e3, e4, n3, n4, ne_eq,
        ite_true, ite_false, if_true, if_false, and_self, ih hrest,
        Option.some.injEq, List.cons.injEq, and_true]
      omega

/-- The user-supplied parameters of one submission (§ Data Model,
`GenerationRequest`). The source image is given as its raw bytes (the code
reads them from `source_image_path`); `cfgScale` is a Python float carried
through without arithmetic, modelled as a rational. -/
structure GenerationRequest where
  sourceImageBytes : List Nat
  maskPrompt : String
  positivePrompt : String
  negativePrompt : String
  outpaintingMode : String
  cfgScale : ℚ
  seed : Nat

/-- The `outPaintingParams` object of the request body built at
`src/app.py` lines 107-125. -/
structure OutPaintingParams where
  text : String
  negativeText : String
  image : String
  maskPrompt : String
  outPaintingMode : String

/-- The `imageGenerationConfig` object of the request body. -/
structure ImageGenerationConfig where
  numberOfImages : Nat
  cfgScale : ℚ
  seed : Nat

/-- The request body assembled by
`prepare_outpainting_request_with_mask_prompt` (before `json.dumps`). -/
structure GenerationPayload where
  taskType : String
  outPaintingParams : OutPaintingParams
  imageGenerationConfig : ImageGenerationConfig

/-- The payload construction of `src/app.py` lines 104-125: base64-encode
the source bytes and fill the fixed-shape dictionary. -/
def buildPayload (req : GenerationRequest) : GenerationPayload :=
  let input_image : String := String.mk (b64encodeBytes req.sourceImageBytes)
  { taskType := "OUTPAINTING"
    outPaintingParams :=
      { text := req.positivePrompt
        negativeText := req.negativePrompt
        image := input_image
        maskPrompt := req.maskPrompt
        outPaintingMode := req.outpaintingMode }
    imageGenerationConfig :=
      { numberOfImages := 1
        cfgScale := req.cfgScale
        seed := req.seed } }

/-- Python exceptions that can arise in the invocation flow. `imageError`
is the typed `ImageError` raised by `generate_image`; `clientError` is
the botocore `ClientError` (carrying the service message);
the remaining constructors are untyped built-in exceptions:
`typeError` from `None[0]`, `indexError` from `[][0]`, and `decodeError`
from `binascii.Error` / `UnicodeEncodeError` during base64 handling. -/
inductive PyErr where
  | imageError (msg : String)
  | clientError (msg : String)
  | typeError
  | indexError
  | decodeError
  deriving DecidableEq, Repr

/-- The parsed JSON response body of `invoke_model`: `.get("images")` is
`none` when the key is absent or null, and `.get("error")` is `none` when
the key is absent or null. -/
structure ResponseBody where
  images : Option (List String)
  error : Option String

/-- The outcome of the remote `invoke_model` call, supplied by the
environment: either a structured response body or a transport-level
`ClientError` with its service message. -/
inductive InvokeOutcome where
  | response (resp : ResponseBody)
  | transportFailure (msg : String)

/-- `generate_image` (`src/app.py` lines 33-69): perform the remote call,
take `response_body.get("images")[0]`, ASCII-encode and base64-decode it,
then inspect `response_body.get("error")` and raise `ImageError` when it is
non-null; otherwise return the decoded bytes. Exceptions are modelled as
`Except.error`. -/
def generate_image (outcome : InvokeOutcome) : Except PyErr (List Nat) :=
  match outcome with
  | .transportFailure msg => .error (.clientError msg)
  | .response resp =>
    match resp.images with
    | none => .error .typeError
    | some [] => .error .indexError
    | some (base64_image :: _) =>
      match b64decodeChars base64_image.data with
      | none => .error .decodeError
      | some image_bytes =>
        match resp.error with
        | some finish_reason =>
            .error (.imageError ("Image generation error. Error is " ++ finish_reason))
        | none => .ok image_bytes

/-- The observable outcome of one call to
`prepare_outpainting_request_with_mask_prompt`: the request body it sent,
the value it returned (`none` when a handler swallowed the failure), the
output files it wrote, the error lines it logged, and the exception
propagating out of it, if any. -/
structure PrepResult where
  sentBody : Option GenerationPayload
  returned : Option String
  written : List String
  logged : List String
  uncaught : Option PyErr

/-- `prepare_outpainting_request_with_mask_prompt` (`src/app.py` lines
73-138): build the body, call `generate_image`, save the decoded image to
`output/outpainting_{seed}_{epoch_time}.jpg` and return that path; catch
`ClientError` and `ImageError`, log them, and fall through returning
`None`; any other exception propagates. `epoch_time` (`int(time.time())`)
is a parameter; the PIL parse/re-encode of the decoded bytes is abstracted
to the path it writes. -/
def prepare_outpainting_request_with_mask_prompt
    (req : GenerationRequest) (outcome : InvokeOutcome) (epoch_time : Nat) :
    PrepResult :=
  let body := buildPayload req
  match generate_image outcome with
  | .ok _image_bytes =>
      let generated_image_path :=
        "output/outpainting_" ++ toString req.seed ++ "_" ++ toString epoch_time ++ ".jpg"
      { sentBody := some body
        returned := some generated_image_path
        written := [generated_image_path]
        logged := []
        uncaught := none }
  | .error (.clientError message) =>
      { sentBody := some body
        returned := none
        written := []
        logged := ["A client error occurred: " ++ message]
        uncaught := none }
  | .error (.imageError msg) =>
      { sentBody := some body
        returned := none
        written := []
        logged := ["A image error occurred: " ++ msg]
        uncaught := none }
  | .error e =>
      { sentBody := some body
        returned := none
        written := []
        logged := []
        uncaught := some e }

/-- What the submission handling of `main` does after the form is submitted
(`src/app.py` lines 240-276). -/
inductive SubmitAction where
  | invokeRemote
  | errorDimensions
  | errorNoImage
  | noOp
  deriving DecidableEq, Repr

/-- The submission dispatch of `main` (`src/app.py` lines 240-276): the
uploaded image is `none` or its `(width, height)`; `image_width` and
`image_height` default to 0 when nothing is uploaded (lines 159-160). The
three `if` blocks are translated condition by condition. -/
def mainSubmitAction (submitted : Bool) (img : Option (Nat × Nat)) : SubmitAction :=
  let image_width := match img with | some (w, _) => w | none => 0
  let image_height := match img with | some (_, h) => h | none => 0
  if submitted ∧ img ≠ none ∧ image_height ≤ 1408 ∧ image_width ≤ 1408 then
    .invokeRemote
  else if submitted ∧ img ≠ none ∧ (image_height > 1408 ∨ image_width > 1408) then
    .errorDimensions
  else if submitted ∧ img = none then
    .errorNoImage
  else
    .noOp

/-- Is the result the typed `ImageError` failure? -/
def isImageErrorFailure : Except PyErr (List Nat) → Bool
  | .error (.imageError _) => true
  | _ => false

/-- Errors caught by the handlers at `src/app.py` lines 134-138
(`except ClientError` / `except ImageError`). -/
def caughtByCaller : PyErr → Bool
  | .clientError _ => true
  | .imageError _ => true
  | _ => false

/-- Typed vs. untyped failures: `ImageError` and `ClientError` are the
declared failure classes; everything else is an untyped built-in
exception. -/
def PyErr.isUntyped : PyErr → Bool
  | .imageError _ => false
  | .clientError _ => false
  | _ => true

/-! ## Claim theorems -/

/-- C1: for every response body whose `images` list has a first entry that
is a valid base64 string and whose `error` field is null or absent,
`generate_image` returns success and the returned bytes are exactly the
base64 decoding of that first entry. -/
theorem c1_generate_image_decodes_first_image
    (resp : ResponseBody) (s : String) (rest : List String) (bs : List Nat)
    (himg : resp.images = some (s :: rest))
    (hdec : b64decodeChars s.data = some bs)
    (herr : resp.error = none) :
    generate_image (.response resp) = .ok bs := by
  simp [generate_image, himg, hdec, herr]

/-- Witness for C1 at a concrete response (the string `QQ==` decodes to the
single byte 65). -/
theorem c1_generate_image_decodes_first_image_witness :
    b64decodeChars ("QQ==" : String).data = some [65] ∧
    generate_image (.response { images := some ["QQ=="], error := none })
      = .ok [65] :=
  ⟨by decide,
   c1_generate_image_decodes_first_image
     { images := some ["QQ=="], error := none } "QQ==" [] [65] rfl (by decide) rfl⟩

/-- C2: for every request, the payload built by the request builder has
`taskType` exactly `OUTPAINTING`, fixes `numberOfImages` to 1, and its
embedded `image` field decodes back to the source image bytes exactly. -/
theorem c2_buildPayload_roundtrip (req : GenerationRequest)
    (hbytes : ∀ b ∈ req.sourceImageBytes, b < 256) :
    (buildPayload req).taskType = "OUTPAINTING" ∧
    (buildPayload req).imageGenerationConfig.numberOfImages = 1 ∧
    b64decodeChars (buildPayload req).outPaintingParams.image.data
      = some req.sourceImageBytes :=
  ⟨rfl, rfl, b64_roundtrip req.sourceImageBytes hbytes⟩

/-- Witness for C2 at a concrete request. -/
theorem c2_buildPayload_roundtrip_witness :
    (∀ b ∈ [0, 255, 10, 7], b < 256) ∧
    ((buildPayload
        { sourceImageBytes := [0, 255, 10, 7], maskPrompt := "Cheeseburger",
          positivePrompt := "p", negativePrompt := "n",
          outpaintingMode := "PRECISE", cfgScale := 7, seed := 42 }).taskType
        = "OUTPAINTING" ∧
     (buildPayload
        { sourceImageBytes := [0, 255, 10, 7], maskPrompt := "Cheeseburger",
          positivePrompt := "p", negativePrompt := "n",
          outpaintingMode := "PRECISE", cfgScale := 7, seed := 42
        }).imageGenerationConfig.numberOfImages = 1 ∧
     b64decodeChars (buildPayload
        { sourceImageBytes := [0, 255, 10, 7], maskPrompt := "Cheeseburger",
          positivePrompt := "p", negativePrompt := "n",
          outpaintingMode := "PRECISE", cfgScale := 7, seed := 42
        }).outPaintingParams.image.data = some [0, 255, 10, 7]) :=
  ⟨by decide,
   c2_buildPayload_roundtrip
     { sourceImageBytes := [0, 255, 10, 7], maskPrompt := "Cheeseburger",
       positivePrompt := "p", negativePrompt := "n",
       outpaintingMode := "PRECISE", cfgScale := 7, seed := 42 } (by decide)⟩

/-- C3 counterexample: a response whose `error` field is present and
non-null but whose `images` field is absent does NOT produce the typed
`ImageError`: indexing `None[0]` raises a `TypeError` first. -/
theorem c3_counterexample_missing_images :
    ({ images := none, error := some "boom" } : ResponseBody).error = some "boom" ∧
    generate_image (.response { images := none, error := some "boom" })
      = .error .typeError ∧
    isImageErrorFailure
      (generate_image (.response { images := none, error := some "boom" })) = false :=
  ⟨rfl, rfl, rfl⟩

/-- C3 (amended): for every response body whose `error` field is present
and non-null AND whose `images` list has a first entry that is a valid
base64 string, `generate_image` fails with the typed `ImageError` carrying
the service-provided message. -/
theorem c3_amended_model_error (resp : ResponseBody) (s : String)
    (rest : List String) (bs : List Nat) (m : String)
    (himg : resp.images = some (s :: rest))
    (hdec : b64decodeChars s.data = some bs)
    (herr : resp.error = some m) :
    generate_image (.response resp)
      = .error (.imageError ("Image generation error. Error is " ++ m)) := by
  simp [generate_image, himg, hdec, herr]

/-- Witness for the amended C3 at a concrete response. -/
theorem c3_amended_model_error_witness :
    b64decodeChars ("QQ==" : String).data = some [65] ∧
    generate_image (.response { images := some ["QQ=="], error := some "policy" })
      = .error (.imageError ("Image generation error. Error is " ++ "policy")) :=
  ⟨by decide,
   c3_amended_model_error
     { images := some ["QQ=="], error := some "policy" } "QQ==" [] [65] "policy"
     rfl (by decide) rfl⟩

/-- C4: every remote-call failure — transport `ClientError` or typed
`ImageError` — is caught inside
`prepare_outpainting_request_with_mask_prompt`, converted to a logged
error line, does not propagate out, and the function yields no image
path. -/
theorem c4_remote_failures_caught (req : GenerationRequest)
    (outcome : InvokeOutcome) (epoch_time : Nat)
    (h : (∃ m, generate_image outcome = .error (.clientError m)) ∨
         (∃ m, generate_image outcome = .error (.imageError m))) :
    (prepare_outpainting_request_with_mask_prompt req outcome epoch_time).uncaught
      = none ∧
    (prepare_outpainting_request_with_mask_prompt req outcome epoch_time).returned
      = none ∧
    (prepare_outpainting_request_with_mask_prompt req outcome epoch_time).logged
      ≠ [] ∧
    (prepare_outpainting_request_with_mask_prompt req outcome epoch_time).written
      = [] := by
  obtain ⟨m, hm⟩ | ⟨m, hm⟩ := h <;>
    simp [prepare_outpainting_request_with_mask_prompt, hm]

/-- Witness for C4 at a concrete transport failure. -/
theorem c4_remote_failures_caught_witness :
    (∃ m, generate_image (.transportFailure "connection refused")
            = .error (.clientError m)) ∧
    (prepare_outpainting_request_with_mask_prompt
        { sourceImageBytes := [1], maskPrompt := "m", positivePrompt := "p",
          negativePrompt := "n", outpaintingMode := "DEFAULT", cfgScale := 7,
          seed := 42 }
        (.transportFailure "connection refused") 1730000000).uncaught = none ∧
    (prepare_outpainting_request_with_mask_prompt
        { sourceImageBytes := [1], maskPrompt := "m", positivePrompt := "p",
          negativePrompt := "n", outpaintingMode := "DEFAULT", cfgScale := 7,
          seed := 42 }
        (.transportFailure "connection refused") 1730000000).returned = none := by
  have h := c4_remote_failures_caught
    { sourceImageBytes := [1], maskPrompt := "m", positivePrompt := "p",
      negativePrompt := "n", outpaintingMode := "DEFAULT", cfgScale := 7,
      seed := 42 }
    (.transportFailure "connection refused") 1730000000
    (Or.inl ⟨"connection refused", rfl⟩)
  exact ⟨⟨"connection refused", rfl⟩, h.1, h.2.1⟩

/-- C5: on a transport failure or a model-reported error no output file is
written, and a file is written only on the success path (after a complete
decode). -/
theorem c5_no_partial_write (req : GenerationRequest) (outcome : InvokeOutcome)
    (epoch_time : Nat) :
    (∀ m, outcome = .transportFailure m →
      (prepare_outpainting_request_with_mask_prompt req outcome epoch_time).written
        = []) ∧
    (∀ m, generate_image outcome = .error (.imageError m) →
      (prepare_outpainting_request_with_mask_prompt req outcome epoch_time).written
        = []) ∧
    (∀ p, p ∈ (prepare_outpainting_request_with_mask_prompt
                  req outcome epoch_time).written →
      ∃ bs, generate_image outcome = .ok bs) := by
  refine ⟨?_, ?_, ?_⟩
  · intro m hm
    subst hm
    simp [prepare_outpainting_request_with_mask_prompt, generate_image]
  · intro m hm
    simp [prepare_outpainting_request_with_mask_prompt, hm]
  · intro p hp
    cases hgen : generate_image outcome with
    | ok bs => exact ⟨bs, rfl⟩
    | error e =>
        exfalso
        cases e <;>
          simp [prepare_outpainting_request_with_mask_prompt, hgen] at hp

/-- Witness for C5 at a concrete transport failure. -/
theorem c5_no_partial_write_witness :
    (prepare_outpainting_request_with_mask_prompt
        { sourceImageBytes := [1], maskPrompt := "m", positivePrompt := "p",
          negativePrompt := "n", outpaintingMode := "DEFAULT", cfgScale := 7,
          seed := 42 }
        (.transportFailure "connection refused") 1730000000).written = [] :=
  (c5_no_partial_write
    { sourceImageBytes := [1], maskPrompt := "m", positivePrompt := "p",
      negativePrompt := "n", outpaintingMode := "DEFAULT", cfgScale := 7,
      seed := 42 }
    (.transportFailure "connection refused") 1730000000).1
    "connection refused" rfl

/-- C6: with an uploaded image whose width and height are both at most
1408 the submission proceeds to the remote call; if either dimension
exceeds 1408, or no image is uploaded, the submission is rejected with the
corresponding user-facing error and no remote call is attempted. -/
theorem c6_submission_validation (w h : Nat) :
    (h ≤ 1408 → w ≤ 1408 →
      mainSubmitAction true (some (w, h)) = .invokeRemote) ∧
    (1408 < h ∨ 1408 < w →
      mainSubmitAction true (some (w, h)) = .errorDimensions) ∧
    mainSubmitAction true none = .errorNoImage := by
  refine ⟨?_, ?_, by decide⟩
  · intro hh hw
    simp [mainSubmitAction, hh, hw]
  · intro hd
    have hne : ¬(h ≤ 1408 ∧ w ≤ 1408) := by omega
    simp only [mainSubmitAction]
    split
    · rename_i hcond
      exact absurd ⟨hcond.2.2.1, hcond.2.2.2⟩ hne
    · split
      · rfl
      · rename_i hc1 hc2
        exfalso
        apply hc2
        refine ⟨by simp, by simp, ?_⟩
        omega

/-- Witness for C6: 1408 x 1408 passes validation, 1409 x 1408 is
rejected. -/
theorem c6_submission_validation_witness :
    mainSubmitAction true (some (1408, 1408)) = .invokeRemote ∧
    mainSubmitAction true (some (1409, 1408)) = .errorDimensions :=
  ⟨(c6_submission_validation 1408 1408).1 (by decide) (by decide),
   (c6_submission_validation 1409 1408).2.1 (Or.inr (by decide))⟩

/-- C7: for every seed in [0, 2147483647] and guidance scale in
[1.1, 10.0] the built payload carries the seed (as `seed`) and the
guidance scale (as `cfgScale`) unchanged. -/
theorem c7_seed_cfg_passthrough (req : GenerationRequest)
    (_hseed : req.seed ≤ 2147483647)
    (_hcfg : (11 / 10 : ℚ) ≤ req.cfgScale ∧ req.cfgScale ≤ 10) :
    (buildPayload req).imageGenerationConfig.seed = req.seed ∧
    (buildPayload req).imageGenerationConfig.cfgScale = req.cfgScale :=
  ⟨rfl, rfl⟩

/-- Witness for C7 at seed 42, guidance scale 7. -/
theorem c7_seed_cfg_passthrough_witness :
    (42 : Nat) ≤ 2147483647 ∧
    ((11 / 10 : ℚ) ≤ 7 ∧ (7 : ℚ) ≤ 10) ∧
    ((buildPayload
        { sourceImageBytes := [1], maskPrompt := "m", positivePrompt := "p",
          negativePrompt := "n", outpaintingMode := "DEFAULT", cfgScale := 7,
          seed := 42 }).imageGenerationConfig.seed = 42 ∧
     (buildPayload
        { sourceImageBytes := [1], maskPrompt := "m", positivePrompt := "p",
          negativePrompt := "n", outpaintingMode := "DEFAULT", cfgScale := 7,
          seed := 42 }).imageGenerationConfig.cfgScale = 7) :=
  ⟨by norm_num, ⟨by norm_num, by norm_num⟩,
   c7_seed_cfg_passthrough
     { sourceImageBytes := [1], maskPrompt := "m", positivePrompt := "p",
       negativePrompt := "n", outpaintingMode := "DEFAULT", cfgScale := 7,
       seed := 42 }
     (by norm_num) ⟨by norm_num, by norm_num⟩⟩

/-- C8: every successfully returned output path is exactly
`output/outpainting_` followed by the seed, an underscore, the epoch
timestamp at write time, and `.jpg`. -/
theorem c8_output_path_convention (req : GenerationRequest)
    (outcome : InvokeOutcome) (epoch_time : Nat) (p : String)
    (hret : (prepare_outpainting_request_with_mask_prompt
               req outcome epoch_time).returned = some p) :
    p = "output/outpainting_" ++ toString req.seed ++ "_"
          ++ toString epoch_time ++ ".jpg" := by
  cases hgen : generate_image outcome with
  | ok bs =>
      simp [prepare_outpainting_request_with_mask_prompt, hgen] at hret
      exact hret.symm
  | error e =>
      exfalso
      cases e <;>
        simp [prepare_outpainting_request_with_mask_prompt, hgen] at hret

/-- Witness for C8 at a concrete successful generation (seed 42, epoch
1730000000). -/
theorem c8_output_path_convention_witness :
    (prepare_outpainting_request_with_mask_prompt
        { sourceImageBytes := [1], maskPrompt := "m", positivePrompt := "p",
          negativePrompt := "n", outpaintingMode := "DEFAULT", cfgScale := 7,
          seed := 42 }
        (.response { images := some ["QQ=="], error := none })
        1730000000).returned = some "output/outpainting_42_1730000000.jpg" ∧
    "output/outpainting_42_1730000000.jpg"
      = "output/outpainting_" ++ toString (42 : Nat) ++ "_"
          ++ toString (1730000000 : Nat) ++ ".jpg" :=
  ⟨by decide,
   c8_output_path_convention
     { sourceImageBytes := [1], maskPrompt := "m", positivePrompt := "p",
       negativePrompt := "n", outpaintingMode := "DEFAULT", cfgScale := 7,
       seed := 42 }
     (.response { images := some ["QQ=="], error := none }) 1730000000
     "output/outpainting_42_1730000000.jpg" (by decide)⟩

/-- The body sent by `prepare_outpainting_request_with_mask_prompt` is
always the one built by `buildPayload` from the request alone, in every
branch. -/
theorem sentBody_eq_buildPayload (req : GenerationRequest)
    (outcome : InvokeOutcome) (epoch_time : Nat) :
    (prepare_outpainting_request_with_mask_prompt
        req outcome epoch_time).sentBody = some (buildPayload req) := by
  cases hgen : generate_image outcome with
  | ok bs => simp [prepare_outpainting_request_with_mask_prompt, hgen]
  | error e =>
      cases e <;> simp [prepare_outpainting_request_with_mask_prompt, hgen]

/-- C9: the request-builder step is pure and deterministic: the payload
sent depends only on the request — two runs with the same request produce
the identical payload `buildPayload req`, independently of the remote
outcome and of the clock. -/
theorem c9_builder_deterministic (req : GenerationRequest)
    (o₁ o₂ : InvokeOutcome) (e₁ e₂ : Nat) :
    (prepare_outpainting_request_with_mask_prompt req o₁ e₁).sentBody
      = some (buildPayload req) ∧
    (prepare_outpainting_request_with_mask_prompt req o₁ e₁).sentBody
      = (prepare_outpainting_request_with_mask_prompt req o₂ e₂).sentBody := by
  refine ⟨sentBody_eq_buildPayload req o₁ e₁, ?_⟩
  rw [sentBody_eq_buildPayload req o₁ e₁, sentBody_eq_buildPayload req o₂ e₂]

/-- C10: when the `images` field of the response is absent/null or an
empty list, `generate_image` raises an untyped exception (`TypeError` or
`IndexError`) whatever the `error` field holds — so the typed `ImageError`
is never produced — and that exception is not caught by the handlers of
the caller, propagating out of
`prepare_outpainting_request_with_mask_prompt`. -/
theorem c10_missing_images_untyped (e : Option String)
    (req : GenerationRequest) (epoch_time : Nat) :
    generate_image (.response { images := none, error := e })
      = .error .typeError ∧
    generate_image (.response { images := some [], error := e })
      = .error .indexError ∧
    PyErr.typeError.isUntyped = true ∧
    PyErr.indexError.isUntyped = true ∧
    caughtByCaller .typeError = false ∧
    caughtByCaller .indexError = false ∧
    (prepare_outpainting_request_with_mask_prompt req
        (.response { images := none, error := e }) epoch_time).uncaught
      = some .typeError ∧
    (prepare_outpainting_request_with_mask_prompt req
        (.response { images := some [], error := e }) epoch_time).uncaught
      = some .indexError := by
  refine ⟨rfl, rfl, rfl, rfl, rfl, rfl, ?_, ?_⟩ <;>
    simp [prepare_outpainting_request_with_mask_prompt, generate_image]

end App
